import Mathlib

/-!
Verification of the `checks` front-end repository.

Part 1 embeds the currency formatter of `src/unnamed/part_000`
(`numberToWords`, `formatAmount`): JS numbers are modelled as exact
rationals (every decimal literal the claims mention is exactly
representable and all roundings in scope are far from float ties),
`parseFloat` is modelled on plain decimal notation with JS maximal-prefix
semantics (no exponents, whitespace or Infinity, which the claims never
exercise), and JS array indexing out of bounds is modelled by `Option` /
a `getD "undefined"` default mirroring template-literal interpolation of
`undefined`.

Part 2 embeds the SSO device-authorization poller of
`src/site/settings.js` as an event-step transition system with
instrumentation fields (allocated interval timers, in-flight request
counters, a ghost phase mirroring the spec state machine, a counter of
`refreshSsoStatus` invocations).
-/

namespace Checks

/-- The `smallNumbers` name table of `src/unnamed/part_000`. -/
def smallNumbers : List String :=
  ["Zero", "One", "Two", "Three", "Four", "Five", "Six", "Seven", "Eight",
   "Nine", "Ten", "Eleven", "Twelve", "Thirteen", "Fourteen", "Fifteen",
   "Sixteen", "Seventeen", "Eighteen", "Nineteen"]

/-- The `tens` name table of `src/unnamed/part_000`. -/
def tens : List String :=
  ["", "", "Twenty", "Thirty", "Forty", "Fifty", "Sixty", "Seventy",
   "Eighty", "Ninety"]

/-- Body of `numberToWords` for non-negative inputs, with a fuel argument
making the JS self-recursion structural. The recursion depth of the JS
function is at most 2 (thousands band calls a remainder below 1000, which
calls a remainder below 100, which is non-recursive), so fuel 3 never runs
out; `numberToWordsNat` fixes the fuel at 3. A JS array read that is out of
bounds inside a template literal renders as "undefined", hence the `getD
"undefined"` default. -/
def numberToWordsGo : Nat → Nat → String
  | 0, _ => ""
  | fuel + 1, value =>
    if value < 20 then smallNumbers.getD value "undefined"
    else if value < 100 then
      let whole := value / 10
      let remainder := value % 10
      if remainder ≠ 0 then
        tens.getD whole "undefined" ++ " " ++ smallNumbers.getD remainder "undefined"
      else tens.getD whole "undefined"
    else if value < 1000 then
      let whole := value / 100
      let remainder := value % 100
      let remainderWords :=
        if remainder ≠ 0 then " " ++ numberToWordsGo fuel remainder else ""
      smallNumbers.getD whole "undefined" ++ " Hundred" ++ remainderWords
    else if value < 10000 then
      let whole := value / 1000
      let remainder := value % 1000
      let remainderWords :=
        if remainder ≠ 0 then " " ++ numberToWordsGo fuel remainder else ""
      smallNumbers.getD whole "undefined" ++ " Thousand" ++ remainderWords
    else ""

/-- `numberToWords` of `src/unnamed/part_000` on non-negative integers. -/
def numberToWordsNat (value : Nat) : String :=
  numberToWordsGo 3 value

/-- `numberToWords` of `src/unnamed/part_000` on all integers. A negative
argument takes the `value < 20` branch in JS and reads `smallNumbers` at a
negative index, which yields `undefined` (`none` here); every non-negative
argument yields a string. -/
def numberToWords (value : Int) : Option String :=
  if value < 0 then none else some (numberToWordsNat value.toNat)

/-- Numeric value of a list of decimal digit characters. -/
def digitsVal (cs : List Char) : Nat :=
  cs.foldl (fun acc c => acc * 10 + (c.toNat - 48)) 0

/-- Model of JS `Number.parseFloat` restricted to plain decimal notation:
optional sign, then digits with at most one decimal point, reading the
longest valid prefix and ignoring trailing characters (as JS does); `none`
models `NaN` (no number could be read). Exponents, leading whitespace and
Infinity are outside the model; no claim exercises them. The value
`sign * (intPart + fracPart / 10 ^ len)` is assembled as a single `mkRat`
so that it is exact and kernel-computable. -/
def jsParseFloat (s : String) : Option ℚ :=
  let (sign, rest) : Int × List Char :=
    match s.data with
    | '-' :: t => (-1, t)
    | '+' :: t => (1, t)
    | t => (1, t)
  let intPart := rest.takeWhile Char.isDigit
  let rest2 := rest.dropWhile Char.isDigit
  let fracPart :=
    match rest2 with
    | '.' :: t => t.takeWhile Char.isDigit
    | _ => []
  if intPart.isEmpty ∧ fracPart.isEmpty then none
  else
    some (mkRat
      (sign * (digitsVal intPart * 10 ^ fracPart.length + digitsVal fracPart))
      (10 ^ fracPart.length))

/-- Model of JS `Math.round` on finite values: round half toward positive
infinity. -/
def jsRound (q : ℚ) : Int :=
  ⌊q + 1/2⌋

/-- Model of JS `String.prototype.padStart` with a one-character pad. -/
def padStart (s : String) (n : Nat) (c : Char) : String :=
  String.mk (List.replicate (n - s.length) c ++ s.data)

/-- Grouping helper: the input is a reversed digit list; a separator is
inserted after every three digits. Structural recursion so that it reduces
in the kernel. -/
def chunk3 : List Char → List Char
  | [] => []
  | [a] => [a]
  | [a, b] => [a, b]
  | [a, b, c] => [a, b, c]
  | a :: b :: c :: rest => a :: b :: c :: ',' :: chunk3 rest

/-- Thousands grouping of a digit string, as the "en-US" locale does. -/
def groupThousands (s : String) : String :=
  String.mk (chunk3 s.data.reverse).reverse

/-- Model of JS `Number.prototype.toLocaleString("en-US", {
minimumFractionDigits: 2, maximumFractionDigits: 2 })`: round the absolute
value to cents half away from zero, render with thousands separators and
exactly two fraction digits, with a leading sign for negative inputs. -/
def jsToLocaleString (q : ℚ) : String :=
  let n := (⌊|q| * 100 + 1/2⌋).toNat
  let whole := n / 100
  let frac := n % 100
  (if q < 0 then "-" else "") ++ groupThousands (toString whole) ++ "." ++
    padStart (toString frac) 2 '0'

/-- `formatAmount` of `src/unnamed/part_000`. `rawAmount || "0"` replaces
the empty string (the only falsy string) by "0"; a `NaN` parse returns the
fixed degraded pair; `numberToWords(dollars) || ""` collapses an
out-of-bounds (`undefined`) dollars lookup to the empty string. -/
def formatAmount (rawAmount : String) : String × String :=
  match jsParseFloat (if rawAmount = "" then "0" else rawAmount) with
  | none => ("0.00", "Zero and 00/100")
  | some amount =>
    let dollars : Int := ⌊amount⌋
    let cents : Int := jsRound ((amount - (dollars : ℚ)) * 100)
    let dollarsWords := (numberToWords dollars).getD ""
    let centsValue := padStart (toString cents) 2 '0'
    (jsToLocaleString amount,
     dollarsWords ++ " and " ++ centsValue ++ "/100")

/-!
Spec-side reference definitions. `specWords` follows the wording of the
spec (and of claim C1): four magnitude bands with the direct name below
20, "tens name, space, ones name" below 100, "hundreds digit name,
Hundred, space plus words of the remainder" below 1000, and likewise for
Thousand below 10000, with the name tables written out as plain case
analysis rather than array indexing. It is compared with the
source-derived `numberToWordsNat`. -/

/-- Spec-side direct name of an integer below twenty. -/
def onesName : Nat → String
  | 0 => "Zero"
  | 1 => "One"
  | 2 => "Two"
  | 3 => "Three"
  | 4 => "Four"
  | 5 => "Five"
  | 6 => "Six"
  | 7 => "Seven"
  | 8 => "Eight"
  | 9 => "Nine"
  | 10 => "Ten"
  | 11 => "Eleven"
  | 12 => "Twelve"
  | 13 => "Thirteen"
  | 14 => "Fourteen"
  | 15 => "Fifteen"
  | 16 => "Sixteen"
  | 17 => "Seventeen"
  | 18 => "Eighteen"
  | 19 => "Nineteen"
  | _ => ""

/-- Spec-side tens name. -/
def tensName : Nat → String
  | 2 => "Twenty"
  | 3 => "Thirty"
  | 4 => "Forty"
  | 5 => "Fifty"
  | 6 => "Sixty"
  | 7 => "Seventy"
  | 8 => "Eighty"
  | 9 => "Ninety"
  | _ => ""

/-- Spec-side banded composition with fuel (the recursion depth of the
bands is at most 2, so fuel 3 never runs out). -/
def specWordsGo : Nat → Nat → String
  | 0, _ => ""
  | fuel + 1, n =>
    if n < 20 then onesName n
    else if n < 100 then
      if n % 10 ≠ 0 then tensName (n / 10) ++ " " ++ onesName (n % 10)
      else tensName (n / 10)
    else if n < 1000 then
      onesName (n / 100) ++ " Hundred" ++
        (if n % 100 ≠ 0 then " " ++ specWordsGo fuel (n % 100) else "")
    else if n < 10000 then
      onesName (n / 1000) ++ " Thousand" ++
        (if n % 1000 ≠ 0 then " " ++ specWordsGo fuel (n % 1000) else "")
    else ""

/-- Spec-side banded composition of claim C1. -/
def specWords (n : Nat) : String :=
  specWordsGo 3 n

/-!
Part 2: the SSO device-authorization poller of `src/site/settings.js`.

The handlers are embedded as a transition system. Low-level events split
each handler at its network suspension points, mirroring the browser event
loop: `startClick` is the synchronous prefix of the start-button handler
(cancel any previous timer, issue the start request), `startResponse`
its continuation once the response arrives; `tickFire` is one firing of
`setInterval` (which issues a poll request), `pollResponse` the poll
callback continuation once that response arrives. Instrumentation fields
not present in the JS record the allocated-and-not-cleared interval
timers, the in-flight request counts, the number of `refreshSsoStatus`
invocations, and a ghost `phase` following the spec state machine
(Idle / Starting / Pending / Authorized / Failed). Serialized events
(`SEv`) run a handler and its response back to back, which is the
"two start actions in succession" reading of the spec.
-/

/-- Spec state machine phases for the device-authorization session. -/
inductive Phase
  | idle
  | starting
  | pending
  | authorized
  | failed
deriving DecidableEq

/-- Payload of a successful start response
(`/api/sso/device/start`). -/
structure StartPayload where
  device_code : String
  interval : Option Nat
  verification_uri_complete : Option String
  verification_uri : String
  user_code : String
deriving DecidableEq

/-- Outcome of the start request: HTTP ok payload, a non-ok
"missing_required_setting" payload, any other non-ok payload
(`payload.error`, possibly absent), or a network/parse rejection. -/
inductive StartResult
  | ok (p : StartPayload)
  | errMissingSetting (setting : String)
  | errOther (msg : Option String)
  | netError (msg : Option String)
deriving DecidableEq

/-- Outcome of one poll request: HTTP 202 ("still waiting"), HTTP ok with
payload status "authorized", HTTP ok with any other payload status (the
handler does nothing), a non-ok "missing_required_setting" payload, any
other non-ok payload, or a network/parse rejection. -/
inductive PollResult
  | waiting
  | okAuthorized
  | okOther
  | errMissingSetting (setting : String)
  | errOther (msg : Option String)
  | netError (msg : Option String)
deriving DecidableEq

/-- State of the settings page poller: the JS globals (`devicePollTimer`,
`deviceCodeValue`, `devicePollInterval`), the DOM cells the handlers
write, and instrumentation (`activeTimers`, `nextTimerId`,
`inFlightStarts`, `inFlightPolls`, `refreshCount`, `phase`). -/
structure PollerState where
  devicePollTimer : Option Nat
  deviceCodeValue : Option String
  devicePollInterval : Nat
  statusText : String
  statusIsError : Bool
  statusIsHtml : Bool
  deviceLinkHref : String
  deviceCodeText : String
  deviceInfoHidden : Bool
  activeTimers : List Nat
  nextTimerId : Nat
  inFlightStarts : Nat
  inFlightPolls : Nat
  refreshCount : Nat
  phase : Phase
deriving DecidableEq

/-- Page-load state: no timer, no device code, interval 5000 ms. -/
def initState : PollerState :=
  ⟨none, none, 5000, "", false, false, "", "", true, [], 0, 0, 0, 0, Phase.idle⟩

/-- `formatMissingSettingMessage` of `src/site/settings.js` for a payload
with `error_code = "missing_required_setting"`. -/
def formatMissingSettingMessage (setting : String) : String :=
  "Missing required setting " ++ setting ++
    ". Update it on the <a href=\"/settings.html\">settings page</a>."

/-- `setDeviceStatus` of `src/site/settings.js`. -/
def setDeviceStatus (s : PollerState) (message : String)
    (isError isHtml : Bool) : PollerState :=
  { s with statusText := message, statusIsError := isError,
           statusIsHtml := isHtml }

/-- `clearInterval(devicePollTimer); devicePollTimer = null;` —
`clearInterval(null)` is a no-op. -/
def clearTimer (s : PollerState) : PollerState :=
  match s.devicePollTimer with
  | some t => { s with devicePollTimer := none,
                       activeTimers := s.activeTimers.erase t }
  | none => s

/-- `Math.max(5, payload.interval || 5) * 1000` (an absent or zero —
falsy — interval falls back to 5 seconds). -/
def jsIntervalMs (i : Option Nat) : Nat :=
  max 5 (match i with | none => 5 | some 0 => 5 | some k => k) * 1000

/-- Low-level events: handler prefixes and response continuations. -/
inductive Ev
  | startClick
  | startResponse (r : StartResult)
  | tickFire (t : Nat)
  | pollResponse (r : PollResult)
deriving DecidableEq

/-- One low-level transition of the settings page. Response events are
guarded on an outstanding request (a response cannot arrive without one);
`tickFire t` is guarded on timer `t` still being active. -/
def step (s : PollerState) : Ev → PollerState
  | Ev.startClick =>
    let s := clearTimer s
    { s with inFlightStarts := s.inFlightStarts + 1, phase := Phase.starting }
  | Ev.startResponse r =>
    if s.inFlightStarts = 0 then s
    else
      let s1 := { s with inFlightStarts := s.inFlightStarts - 1 }
      match r with
      | StartResult.ok p =>
        { s1 with
          deviceCodeValue := some p.device_code,
          devicePollInterval := jsIntervalMs p.interval,
          deviceLinkHref := p.verification_uri_complete.getD p.verification_uri,
          deviceCodeText := p.user_code,
          deviceInfoHidden := false,
          statusText := "Waiting for authorization...",
          statusIsError := false,
          statusIsHtml := false,
          devicePollTimer := some s1.nextTimerId,
          activeTimers := s1.nextTimerId :: s1.activeTimers,
          nextTimerId := s1.nextTimerId + 1,
          phase := Phase.pending }
      | StartResult.errMissingSetting name =>
        { setDeviceStatus s1 (formatMissingSettingMessage name) true true with
          phase := Phase.idle }
      | StartResult.errOther msg =>
        { setDeviceStatus s1 (msg.getD "Unable to start device login.") true false with
          phase := Phase.idle }
      | StartResult.netError msg =>
        { setDeviceStatus s1 (msg.getD "Unable to start device login.") true false with
          phase := Phase.idle }
  | Ev.tickFire t =>
    if t ∈ s.activeTimers then { s with inFlightPolls := s.inFlightPolls + 1 }
    else s
  | Ev.pollResponse r =>
    if s.inFlightPolls = 0 then s
    else
      let s1 := { s with inFlightPolls := s.inFlightPolls - 1 }
      match r with
      | PollResult.waiting =>
        setDeviceStatus s1 "Waiting for authorization..." false false
      | PollResult.okAuthorized =>
        let s2 := clearTimer (setDeviceStatus s1 "SSO device login complete." false false)
        { s2 with refreshCount := s2.refreshCount + 1, phase := Phase.authorized }
      | PollResult.okOther => s1
      | PollResult.errMissingSetting name =>
        { clearTimer (setDeviceStatus s1 (formatMissingSettingMessage name) true true) with
          phase := Phase.failed }
      | PollResult.errOther msg =>
        { clearTimer (setDeviceStatus s1 (msg.getD "Device authorization failed.") true false) with
          phase := Phase.failed }
      | PollResult.netError msg =>
        { clearTimer (setDeviceStatus s1 (msg.getD "Device authorization failed.") true false) with
          phase := Phase.failed }

/-- Run of the low-level transition system. -/
def run (s : PollerState) (es : List Ev) : PollerState :=
  es.foldl step s

/-- Serialized events: a handler and its response processed back to back
(events completed one after the other, with no overlapping requests). -/
inductive SEv
  | start (r : StartResult)
  | tick (r : PollResult)
deriving DecidableEq

/-- One serialized transition: the start click followed by its response,
or a tick of the current timer followed by its poll response. -/
def sstep (s : PollerState) : SEv → PollerState
  | SEv.start r => step (step s Ev.startClick) (Ev.startResponse r)
  | SEv.tick r =>
    let s1 := match s.devicePollTimer with
      | some t => step s (Ev.tickFire t)
      | none => s
    step s1 (Ev.pollResponse r)

/-- Run of serialized events from the page-load state. -/
def runS (es : List SEv) : PollerState :=
  es.foldl sstep initState

/-- The set of timers the handle refers to. -/
def timerSet (s : PollerState) : List Nat :=
  match s.devicePollTimer with
  | some t => [t]
  | none => []

/-- Serialized-run invariant: no request outstanding between serialized
events, and the active timers are exactly the one the handle points to. -/
def Inv (s : PollerState) : Prop :=
  s.inFlightStarts = 0 ∧ s.inFlightPolls = 0 ∧ s.activeTimers = timerSet s

/-- A concrete start payload used for sample traces. -/
def samplePayload : StartPayload :=
  ⟨"device-code-1", some 5, none, "https://example.com/device", "ABCD-EFGH"⟩

lemma smallNumbers_getD_eq_onesName : ∀ n < 20,
    smallNumbers.getD n "undefined" = onesName n := by decide

lemma tens_getD_eq_tensName : ∀ n < 10, 2 ≤ n →
    tens.getD n "undefined" = tensName n := by decide

lemma numberToWordsGo_eq_specWordsGo :
    ∀ fuel n, numberToWordsGo fuel n = specWordsGo fuel n := by
  intro fuel
  induction fuel with
  | zero => intro n; rfl
  | succ fuel ih =>
    intro n
    simp only [numberToWordsGo, specWordsGo]
    by_cases h1 : n < 20
    · rw [if_pos h1, if_pos h1]
      exact smallNumbers_getD_eq_onesName n h1
    by_cases h2 : n < 100
    · simp only [h1, h2, if_true, if_false]
      rw [tens_getD_eq_tensName (n / 10) (by omega) (by omega),
        smallNumbers_getD_eq_onesName (n % 10) (by omega)]
    by_cases h3 : n < 1000
    · simp only [h1, h2, h3, if_true, if_false]
      rw [smallNumbers_getD_eq_onesName (n / 100) (by omega), ih (n % 100)]
    by_cases h4 : n < 10000
    · simp only [h1, h2, h3, h4, if_true, if_false]
      rw [smallNumbers_getD_eq_onesName (n / 1000) (by omega), ih (n % 1000)]
    · simp [h1, h2, h3, h4]

/-- C1: for every integer n with 0 ≤ n ≤ 9999, `numberToWords(n)` returns
(never throws) the banded composition of the spec: direct name below 20,
tens plus ones below 100, hundreds digit plus " Hundred" plus remainder
words below 1000, thousands digit plus " Thousand" plus remainder words
below 10000; in particular words(0) = "Zero", words(21) = "Twenty One",
words(101) = "One Hundred One", words(1001) = "One Thousand One". -/
theorem c1_numberToWords_banded_composition :
    (∀ n : Nat, n ≤ 9999 → numberToWordsNat n = specWords n) ∧
    numberToWordsNat 0 = "Zero" ∧
    numberToWordsNat 21 = "Twenty One" ∧
    numberToWordsNat 101 = "One Hundred One" ∧
    numberToWordsNat 1001 = "One Thousand One" := by
  refine ⟨fun n _ => numberToWordsGo_eq_specWordsGo 3 n, ?_, ?_, ?_, ?_⟩ <;> decide

/-- Witness for C1 at n = 4567. -/
theorem c1_numberToWords_banded_composition_witness :
    4567 ≤ 9999 ∧ numberToWordsNat 4567 = specWords 4567 :=
  ⟨by decide, c1_numberToWords_banded_composition.1 4567 (by decide)⟩

/-- C8: for every integer n ≥ 10000, `numberToWords(n)` returns the empty
string, so the dollars portion of the words rendering is silently empty
from 10,000 dollars upward. -/
theorem c8_numberToWords_empty_from_10000 :
    ∀ value : Int, 10000 ≤ value → numberToWords value = some "" := by
  intro value h
  have hneg : ¬ value < 0 := by omega
  have htoNat : 10000 ≤ value.toNat := by omega
  simp only [numberToWords, hneg, if_false, Option.some.injEq]
  show numberToWordsGo 3 value.toNat = ""
  simp only [numberToWordsGo]
  have h1 : ¬ value.toNat < 20 := by omega
  have h2 : ¬ value.toNat < 100 := by omega
  have h3 : ¬ value.toNat < 1000 := by omega
  have h4 : ¬ value.toNat < 10000 := by omega
  simp [h1, h2, h3, h4]

/-- Witness for C8 at value = 10000. -/
theorem c8_numberToWords_empty_from_10000_witness :
    10000 ≤ (10000 : Int) ∧ numberToWords 10000 = some "" :=
  ⟨by decide, c8_numberToWords_empty_from_10000 10000 (by decide)⟩

/-! Helper lemmas for the `formatAmount` claims. -/

lemma fa_unfold (s : String) (q : ℚ)
    (h : jsParseFloat (if s = "" then "0" else s) = some q) :
    formatAmount s = (jsToLocaleString q,
      (numberToWords ⌊q⌋).getD "" ++ " and " ++
        padStart (toString (jsRound ((q - (⌊q⌋ : ℚ)) * 100))) 2 '0' ++ "/100") := by
  unfold formatAmount
  rw [h]

lemma padStart_length (s : String) (n : Nat) (c : Char) :
    (padStart s n c).length = max n s.length := by
  show (List.replicate (n - s.length) c ++ s.data).length = max n s.length
  rw [List.length_append, List.length_replicate]
  have : s.data.length = s.length := rfl
  omega

lemma toString_nat_lt_100_length_le_two :
    ∀ m < 100, (toString m).length ≤ 2 := by decide

/-- The locale rendering always ends in a dot followed by exactly two
digits. -/
lemma jsToLocaleString_shape (q : ℚ) :
    ∃ w f, jsToLocaleString q = w ++ "." ++ f ∧ f.length = 2 := by
  refine ⟨(if q < 0 then "-" else "") ++
      groupThousands (toString ((⌊|q| * 100 + 1/2⌋).toNat / 100)),
    padStart (toString ((⌊|q| * 100 + 1/2⌋).toNat % 100)) 2 '0', rfl, ?_⟩
  rw [padStart_length]
  have := toString_nat_lt_100_length_le_two ((⌊|q| * 100 + 1/2⌋).toNat % 100)
    (Nat.mod_lt _ (by norm_num))
  omega

/-- C4: any input string that does not parse as a number, as well as ""
and "0", yields exactly the degraded pair ("0.00", "Zero and 00/100"),
and no error ever reaches the caller (the model is a total function). -/
theorem c4_formatAmount_degrades_to_zero :
    ∀ s : String, (jsParseFloat s = none ∨ s = "" ∨ s = "0") →
      formatAmount s = ("0.00", "Zero and 00/100") := by
  have hzero : ∀ t : String,
      jsParseFloat (if t = "" then "0" else t) = some (mkRat 0 1) →
      formatAmount t = ("0.00", "Zero and 00/100") := by
    intro t ht
    rw [fa_unfold t (mkRat 0 1) ht]
    have hm : (mkRat 0 1 : ℚ) = 0 := by decide
    rw [hm, Int.floor_zero]
    rw [show jsRound (((0:ℚ) - ((0:Int):ℚ)) * 100) = 0 by
      unfold jsRound
      rw [show ((0:ℚ) - ((0:Int):ℚ)) * 100 + 1/2 = mkRat 1 2 by
        rw [Rat.mkRat_eq_div]; push_cast; norm_num]
      decide]
    rw [show jsToLocaleString 0 = "0.00" by
      unfold jsToLocaleString
      rw [show |(0:ℚ)| * 100 + 1/2 = mkRat 1 2 by
        rw [Rat.mkRat_eq_div]; push_cast; norm_num]
      decide]
    decide
  intro s h
  rcases h with h | h | h
  · by_cases hs : s = ""
    · subst hs; exact hzero "" (by decide)
    · unfold formatAmount; rw [if_neg hs, h]
  · subst h; exact hzero "" (by decide)
  · subst h; exact hzero "0" (by decide)

/-- Witness for C4 at the unparseable input "abc". -/
theorem c4_formatAmount_degrades_to_zero_witness :
    jsParseFloat "abc" = none ∧
    formatAmount "abc" = ("0.00", "Zero and 00/100") :=
  ⟨by decide, c4_formatAmount_degrades_to_zero "abc" (Or.inl (by decide))⟩

/-- C5: an input parsing to a non-negative number with whole-dollar part
below 10000 is rendered with exactly two fractional digits, and the words
are "<dollars words> and <CC>/100" with CC the rounded fractional
remainder times 100, zero-padded to at least two digits; in particular
formatAmount("19.5") = ("19.50", "Nineteen and 50/100"). -/
theorem c5_formatAmount_nonneg_rendering :
    (∀ (s : String) (q : ℚ), jsParseFloat s = some q → 0 ≤ q → ⌊q⌋ < 10000 →
      (∃ w f, (formatAmount s).1 = w ++ "." ++ f ∧ f.length = 2) ∧
      (formatAmount s).2 = numberToWordsNat (⌊q⌋).toNat ++ " and " ++
        padStart (toString (jsRound ((q - (⌊q⌋ : ℚ)) * 100))) 2 '0' ++ "/100") ∧
    formatAmount "19.5" = ("19.50", "Nineteen and 50/100") := by
  constructor
  · intro s q h hq _
    have hs : s ≠ "" := by
      intro he; subst he
      rw [show jsParseFloat "" = (none : Option ℚ) from rfl] at h
      exact Option.noConfusion h
    have hfa := fa_unfold s q (by rw [if_neg hs]; exact h)
    have hflnn : ¬ ⌊q⌋ < 0 := by
      have := Int.floor_nonneg.mpr hq
      omega
    have hw : numberToWords ⌊q⌋ = some (numberToWordsNat (⌊q⌋).toNat) := by
      unfold numberToWords; rw [if_neg hflnn]
    constructor
    · rw [hfa]
      exact jsToLocaleString_shape q
    · rw [hfa, hw]
      rfl
  · rw [fa_unfold "19.5" (mkRat 39 2) (by decide)]
    have hfl : (⌊(mkRat 39 2 : ℚ)⌋ : Int) = 19 := by decide
    rw [hfl]
    rw [show jsRound (((mkRat 39 2 : ℚ) - ((19:Int):ℚ)) * 100) = 50 by
      unfold jsRound
      rw [show ((mkRat 39 2 : ℚ) - ((19:Int):ℚ)) * 100 + 1/2 = mkRat 101 2 by
        rw [Rat.mkRat_eq_div, Rat.mkRat_eq_div]; push_cast; norm_num]
      decide]
    rw [show jsToLocaleString (mkRat 39 2) = "19.50" by
      unfold jsToLocaleString
      rw [show |(mkRat 39 2 : ℚ)| * 100 + 1/2 = mkRat 3901 2 by
        rw [Rat.mkRat_eq_div, Rat.mkRat_eq_div]; push_cast
        rw [abs_of_nonneg (by norm_num : (0:ℚ) ≤ 39/2)]
        norm_num]
      decide]
    decide

/-- Witness for C5 at the input "19.5". -/
theorem c5_formatAmount_nonneg_rendering_witness :
    jsParseFloat "19.5" = some (mkRat 39 2) ∧ 0 ≤ (mkRat 39 2 : ℚ) ∧
    ⌊(mkRat 39 2 : ℚ)⌋ < 10000 ∧
    ((∃ w f, (formatAmount "19.5").1 = w ++ "." ++ f ∧ f.length = 2) ∧
      (formatAmount "19.5").2 = numberToWordsNat (⌊(mkRat 39 2 : ℚ)⌋).toNat ++
        " and " ++
        padStart (toString (jsRound (((mkRat 39 2 : ℚ) -
          ((⌊(mkRat 39 2 : ℚ)⌋ : Int) : ℚ)) * 100))) 2 '0' ++ "/100") :=
  ⟨by decide, by decide, by decide,
    c5_formatAmount_nonneg_rendering.1 "19.5" (mkRat 39 2)
      (by decide) (by decide) (by decide)⟩

/-- C7: cent rounding is not carried into the dollars: for "1234.999" the
number parses to 1234999/1000, the dollars are floor = 1234, the cents are
round(0.999 * 100) = 100, and the words render the dollars words of 1234
followed by "100/100" (no normalization to 1235 dollars and "00"). -/
theorem c7_formatAmount_no_carry_into_dollars :
    jsParseFloat "1234.999" = some (mkRat 1234999 1000) ∧
    (⌊(mkRat 1234999 1000 : ℚ)⌋ : Int) = 1234 ∧
    jsRound (((mkRat 1234999 1000 : ℚ) - ((1234:Int):ℚ)) * 100) = 100 ∧
    (formatAmount "1234.999").2 =
      "One Thousand Two Hundred Thirty Four and 100/100" := by
  have hround : jsRound (((mkRat 1234999 1000 : ℚ) - ((1234:Int):ℚ)) * 100) = 100 := by
    unfold jsRound
    rw [show ((mkRat 1234999 1000 : ℚ) - ((1234:Int):ℚ)) * 100 + 1/2 = mkRat 502 5 by
      rw [Rat.mkRat_eq_div, Rat.mkRat_eq_div]; push_cast; norm_num]
    decide
  refine ⟨by decide, by decide, hround, ?_⟩
  rw [fa_unfold "1234.999" (mkRat 1234999 1000) (by decide)]
  have hfl : (⌊(mkRat 1234999 1000 : ℚ)⌋ : Int) = 1234 := by decide
  rw [hfl, hround]
  decide

/-- Counterexample for C10 as stated: at the negative input "-0.001" the
cents value round((amount - floor(amount)) * 100) is 100, which is not in
[0, 100); the words field is " and 100/100". -/
theorem c10_counterexample_cents_can_reach_100 :
    (formatAmount "-0.001").2 = " and 100/100" ∧
    ¬ (∀ (s : String) (q : ℚ), jsParseFloat s = some q → q < 0 →
        jsRound ((q - (⌊q⌋ : ℚ)) * 100) < 100) := by
  have hfl : (⌊(mkRat (-1) 1000 : ℚ)⌋ : Int) = -1 := by decide
  have hround : jsRound (((mkRat (-1) 1000 : ℚ) - ((-1:Int):ℚ)) * 100) = 100 := by
    unfold jsRound
    rw [show ((mkRat (-1) 1000 : ℚ) - ((-1:Int):ℚ)) * 100 + 1/2 = mkRat 502 5 by
      rw [Rat.mkRat_eq_div, Rat.mkRat_eq_div]; push_cast; norm_num]
    decide
  constructor
  · rw [fa_unfold "-0.001" (mkRat (-1) 1000) (by decide)]
    rw [hfl, hround]
    decide
  · intro hcl
    have h := hcl "-0.001" (mkRat (-1) 1000) (by decide) (by decide)
    rw [hfl] at h
    rw [hround] at h
    exact absurd h (by omega)

/-- C10 amended: a strictly negative finite parse still returns without
error; the dollars lookup is out of bounds so the dollars words are empty
and the words field is " and <CC>/100" (leading space preserved), with CC
= round((amount - floor(amount)) * 100) in [0, 100] (100 is attained,
e.g. at "-0.001"); the formatted field is the two-decimal locale
rendering of the negative amount. -/
theorem c10_amended_negative_amounts :
    ∀ (s : String) (q : ℚ), jsParseFloat s = some q → q < 0 →
      formatAmount s = (jsToLocaleString q,
        " and " ++ padStart (toString (jsRound ((q - (⌊q⌋ : ℚ)) * 100))) 2 '0' ++
          "/100") ∧
      0 ≤ jsRound ((q - (⌊q⌋ : ℚ)) * 100) ∧
      jsRound ((q - (⌊q⌋ : ℚ)) * 100) ≤ 100 := by
  intro s q h hq
  have hs : s ≠ "" := by
    intro he; subst he
    rw [show jsParseFloat "" = (none : Option ℚ) from rfl] at h
    exact Option.noConfusion h
  have hfa := fa_unfold s q (by rw [if_neg hs]; exact h)
  have hflneg : ⌊q⌋ < 0 := by
    have h2 : ((⌊q⌋ : Int) : ℚ) ≤ q := Int.floor_le q
    exact_mod_cast lt_of_le_of_lt h2 hq
  have hnone : numberToWords ⌊q⌋ = none := by
    unfold numberToWords; rw [if_pos hflneg]
  have h0 : (0:ℚ) ≤ q - ⌊q⌋ := by
    have := Int.floor_le q; linarith
  have h1 : q - ⌊q⌋ < 1 := by
    have := Int.lt_floor_add_one q; linarith
  refine ⟨?_, ?_, ?_⟩
  · rw [hfa, hnone]
    rfl
  · unfold jsRound
    apply Int.le_floor.mpr
    push_cast
    linarith
  · unfold jsRound
    have hlt : ⌊(q - (⌊q⌋ : ℚ)) * 100 + 1/2⌋ < 101 := by
      apply Int.floor_lt.mpr
      push_cast
      linarith
    omega

/-- Witness for the amended C10 at the input "-0.001". -/
theorem c10_amended_negative_amounts_witness :
    jsParseFloat "-0.001" = some (mkRat (-1) 1000) ∧ (mkRat (-1) 1000 : ℚ) < 0 ∧
    (formatAmount "-0.001" = (jsToLocaleString (mkRat (-1) 1000),
        " and " ++ padStart (toString (jsRound (((mkRat (-1) 1000 : ℚ) -
          ((⌊(mkRat (-1) 1000 : ℚ)⌋ : Int) : ℚ)) * 100))) 2 '0' ++ "/100") ∧
      0 ≤ jsRound (((mkRat (-1) 1000 : ℚ) -
        ((⌊(mkRat (-1) 1000 : ℚ)⌋ : Int) : ℚ)) * 100) ∧
      jsRound (((mkRat (-1) 1000 : ℚ) -
        ((⌊(mkRat (-1) 1000 : ℚ)⌋ : Int) : ℚ)) * 100) ≤ 100) :=
  ⟨by decide, by decide,
    c10_amended_negative_amounts "-0.001" (mkRat (-1) 1000) (by decide) (by decide)⟩

lemma inv_initState : Inv initState :=
  ⟨rfl, rfl, rfl⟩

lemma inv_sstep : ∀ (s : PollerState) (e : SEv), Inv s → Inv (sstep s e) := by
  rintro s e ⟨h1, h2, h3⟩
  cases hd : s.devicePollTimer with
  | none =>
    have hA : s.activeTimers = [] := by rw [h3]; simp [timerSet, hd]
    cases e with
    | start r =>
      cases r <;>
        simp [Inv, sstep, step, clearTimer, setDeviceStatus, timerSet, hd, hA, h1, h2]
    | tick r =>
      cases r <;>
        simp [Inv, sstep, step, clearTimer, setDeviceStatus, timerSet, hd, hA, h1, h2, h3]
  | some t =>
    have hA : s.activeTimers = [t] := by rw [h3]; simp [timerSet, hd]
    cases e with
    | start r =>
      cases r <;>
        simp [Inv, sstep, step, clearTimer, setDeviceStatus, timerSet, hd, hA, h1, h2]
    | tick r =>
      cases r <;>
        simp [Inv, sstep, step, clearTimer, setDeviceStatus, timerSet, hd, hA, h1, h2]

lemma inv_foldl : ∀ (es : List SEv) (s : PollerState), Inv s → Inv (es.foldl sstep s) := by
  intro es
  induction es with
  | nil => intro s h; exact h
  | cons e es ih => intro s h; exact ih _ (inv_sstep s e h)

lemma inv_runS (es : List SEv) : Inv (runS es) :=
  inv_foldl es initState inv_initState

/-- C2: a start click cancels the previous timer and nulls the handle
before the new start request is issued; over serialized runs at most one
polling timer is ever active; and two start actions in succession leave
exactly one active timer (the second one). -/
theorem c2_start_cancels_previous_timer :
    (∀ es : List SEv, (runS es).activeTimers.length ≤ 1) ∧
    (∀ (es : List SEv) (t : Nat), (runS es).devicePollTimer = some t →
      (step (runS es) Ev.startClick).devicePollTimer = none ∧
      t ∉ (step (runS es) Ev.startClick).activeTimers) ∧
    (∀ p₁ p₂ : StartPayload,
      (runS [SEv.start (StartResult.ok p₁),
             SEv.start (StartResult.ok p₂)]).activeTimers = [1] ∧
      (runS [SEv.start (StartResult.ok p₁),
             SEv.start (StartResult.ok p₂)]).devicePollTimer = some 1) := by
  refine ⟨?_, ?_, ?_⟩
  · intro es
    obtain ⟨_, _, h3⟩ := inv_runS es
    rw [h3]
    unfold timerSet
    cases (runS es).devicePollTimer <;> simp
  · intro es t hd
    obtain ⟨h1, h2, h3⟩ := inv_runS es
    have hA : (runS es).activeTimers = [t] := by rw [h3]; simp [timerSet, hd]
    constructor
    · simp [step, clearTimer, hd]
    · simp [step, clearTimer, hd, hA]
  · intro p₁ p₂
    exact ⟨rfl, rfl⟩

/-- Witness for C2 after one completed start (timer 0 active). -/
theorem c2_start_cancels_previous_timer_witness :
    (runS [SEv.start (StartResult.ok samplePayload)]).devicePollTimer = some 0 ∧
    ((step (runS [SEv.start (StartResult.ok samplePayload)])
        Ev.startClick).devicePollTimer = none ∧
      0 ∉ (step (runS [SEv.start (StartResult.ok samplePayload)])
        Ev.startClick).activeTimers) :=
  ⟨rfl, c2_start_cancels_previous_timer.2.1
    [SEv.start (StartResult.ok samplePayload)] 0 rfl⟩

/-- C3: from a Pending state with timer t, a 202 "still waiting" poll
response leaves the session Pending with the same live timer and
re-reports the waiting message; an "authorized" success cancels the timer,
reaches Authorized, and bumps the status-refresh counter by exactly one;
the failure responses (missing-setting, generic error, network/parse
error) cancel the timer and reach Failed, as do start-request errors; and
no poll response reaches a terminal phase while a timer is live. -/
theorem c3_poll_response_transitions :
    ∀ (es : List SEv) (t : Nat),
      (runS es).phase = Phase.pending → (runS es).devicePollTimer = some t →
      ((sstep (runS es) (SEv.tick PollResult.waiting)).phase = Phase.pending ∧
       (sstep (runS es) (SEv.tick PollResult.waiting)).devicePollTimer = some t ∧
       (sstep (runS es) (SEv.tick PollResult.waiting)).activeTimers = [t] ∧
       (sstep (runS es) (SEv.tick PollResult.waiting)).statusText =
         "Waiting for authorization..." ∧
       (sstep (runS es) (SEv.tick PollResult.waiting)).refreshCount =
         (runS es).refreshCount) ∧
      ((sstep (runS es) (SEv.tick PollResult.okAuthorized)).phase = Phase.authorized ∧
       (sstep (runS es) (SEv.tick PollResult.okAuthorized)).devicePollTimer = none ∧
       (sstep (runS es) (SEv.tick PollResult.okAuthorized)).activeTimers = [] ∧
       (sstep (runS es) (SEv.tick PollResult.okAuthorized)).statusText =
         "SSO device login complete." ∧
       (sstep (runS es) (SEv.tick PollResult.okAuthorized)).refreshCount =
         (runS es).refreshCount + 1) ∧
      (∀ name : String,
        (sstep (runS es) (SEv.tick (PollResult.errMissingSetting name))).phase =
          Phase.failed ∧
        (sstep (runS es) (SEv.tick (PollResult.errMissingSetting name))).devicePollTimer =
          none ∧
        (sstep (runS es) (SEv.tick (PollResult.errMissingSetting name))).activeTimers =
          []) ∧
      (∀ msg : Option String,
        (sstep (runS es) (SEv.tick (PollResult.errOther msg))).phase = Phase.failed ∧
        (sstep (runS es) (SEv.tick (PollResult.errOther msg))).devicePollTimer = none ∧
        (sstep (runS es) (SEv.tick (PollResult.errOther msg))).activeTimers = [] ∧
        (sstep (runS es) (SEv.tick (PollResult.netError msg))).phase = Phase.failed ∧
        (sstep (runS es) (SEv.tick (PollResult.netError msg))).devicePollTimer = none ∧
        (sstep (runS es) (SEv.tick (PollResult.netError msg))).activeTimers = []) ∧
      (∀ msg : Option String,
        (sstep (runS es) (SEv.start (StartResult.errOther msg))).devicePollTimer =
          none ∧
        (sstep (runS es) (SEv.start (StartResult.errOther msg))).activeTimers = [] ∧
        (sstep (runS es) (SEv.start (StartResult.netError msg))).devicePollTimer =
          none ∧
        (sstep (runS es) (SEv.start (StartResult.netError msg))).activeTimers = []) ∧
      (∀ r : PollResult,
        ((sstep (runS es) (SEv.tick r)).phase = Phase.authorized ∨
         (sstep (runS es) (SEv.tick r)).phase = Phase.failed) →
        (sstep (runS es) (SEv.tick r)).devicePollTimer = none ∧
        (sstep (runS es) (SEv.tick r)).activeTimers = []) := by
  intro es t hphase hd
  obtain ⟨h1, h2, h3⟩ := inv_runS es
  have hA : (runS es).activeTimers = [t] := by rw [h3]; simp [timerSet, hd]
  refine ⟨?_, ?_, ?_, ?_, ?_, ?_⟩
  · simp [sstep, step, clearTimer, setDeviceStatus, hd, hA, h2, hphase]
  · simp [sstep, step, clearTimer, setDeviceStatus, hd, hA, h2]
  · intro name
    simp [sstep, step, clearTimer, setDeviceStatus, hd, hA, h2]
  · intro msg
    simp [sstep, step, clearTimer, setDeviceStatus, hd, hA, h2]
  · intro msg
    simp [sstep, step, clearTimer, setDeviceStatus, hd, hA, h1, h2]
  · intro r hr
    cases r with
    | waiting =>
      exfalso
      have : (sstep (runS es) (SEv.tick PollResult.waiting)).phase = Phase.pending := by
        simp [sstep, step, clearTimer, setDeviceStatus, hd, hA, h2, hphase]
      rcases hr with hr | hr <;> rw [this] at hr <;> exact Phase.noConfusion hr
    | okOther =>
      exfalso
      have : (sstep (runS es) (SEv.tick PollResult.okOther)).phase = Phase.pending := by
        simp [sstep, step, clearTimer, setDeviceStatus, hd, hA, h2, hphase]
      rcases hr with hr | hr <;> rw [this] at hr <;> exact Phase.noConfusion hr
    | okAuthorized =>
      constructor <;> simp [sstep, step, clearTimer, setDeviceStatus, hd, hA, h2]
    | errMissingSetting name =>
      constructor <;> simp [sstep, step, clearTimer, setDeviceStatus, hd, hA, h2]
    | errOther msg =>
      constructor <;> simp [sstep, step, clearTimer, setDeviceStatus, hd, hA, h2]
    | netError msg =>
      constructor <;> simp [sstep, step, clearTimer, setDeviceStatus, hd, hA, h2]

/-- Witness for C3: after one successful start, the session is Pending on
timer 0. -/
theorem c3_poll_response_transitions_witness :
    (runS [SEv.start (StartResult.ok samplePayload)]).phase = Phase.pending ∧
    (runS [SEv.start (StartResult.ok samplePayload)]).devicePollTimer = some 0 ∧
    (sstep (runS [SEv.start (StartResult.ok samplePayload)])
      (SEv.tick PollResult.okAuthorized)).refreshCount =
      (runS [SEv.start (StartResult.ok samplePayload)]).refreshCount + 1 :=
  ⟨rfl, rfl,
    (c3_poll_response_transitions [SEv.start (StartResult.ok samplePayload)] 0
      rfl rfl).2.1.2.2.2.2⟩

/-- C6: a "missing required setting" payload on the start call returns the
session to Idle with no polling timer; the displayed message is the
distinguished missing-setting message, marked as error and rendered as
markup (HTML), contains the setting name and the link to the settings
page, and differs from the generic start-failure message. -/
theorem c6_missing_setting_on_start :
    ∀ (es : List SEv) (name : String),
      (sstep (runS es) (SEv.start (StartResult.errMissingSetting name))).phase =
        Phase.idle ∧
      (sstep (runS es) (SEv.start (StartResult.errMissingSetting name))).devicePollTimer =
        none ∧
      (sstep (runS es) (SEv.start (StartResult.errMissingSetting name))).activeTimers =
        [] ∧
      (sstep (runS es) (SEv.start (StartResult.errMissingSetting name))).statusText =
        formatMissingSettingMessage name ∧
      (sstep (runS es) (SEv.start (StartResult.errMissingSetting name))).statusIsHtml =
        true ∧
      (sstep (runS es) (SEv.start (StartResult.errMissingSetting name))).statusIsError =
        true ∧
      (∃ pre post, formatMissingSettingMessage name = pre ++ name ++ post) ∧
      (∃ pre post, formatMissingSettingMessage name =
        pre ++ "<a href=\"/settings.html\">" ++ post) ∧
      formatMissingSettingMessage name ≠ "Unable to start device login." := by
  intro es name
  obtain ⟨h1, h2, h3⟩ := inv_runS es
  refine ⟨?_, ?_, ?_, ?_, ?_, ?_, ?_, ?_, ?_⟩
  · simp [sstep, step, clearTimer, setDeviceStatus, h1]
  · cases hd : (runS es).devicePollTimer <;>
      simp [sstep, step, clearTimer, setDeviceStatus, hd, h1]
  · cases hd : (runS es).devicePollTimer with
    | none =>
      have hA : (runS es).activeTimers = [] := by rw [h3]; simp [timerSet, hd]
      simp [sstep, step, clearTimer, setDeviceStatus, hd, hA, h1]
    | some t =>
      have hA : (runS es).activeTimers = [t] := by rw [h3]; simp [timerSet, hd]
      simp [sstep, step, clearTimer, setDeviceStatus, hd, hA, h1]
  · cases hd : (runS es).devicePollTimer <;>
      simp [sstep, step, clearTimer, setDeviceStatus, hd, h1]
  · cases hd : (runS es).devicePollTimer <;>
      simp [sstep, step, clearTimer, setDeviceStatus, hd, h1]
  · cases hd : (runS es).devicePollTimer <;>
      simp [sstep, step, clearTimer, setDeviceStatus, hd, h1]
  · exact ⟨"Missing required setting ",
      ". Update it on the <a href=\"/settings.html\">settings page</a>.", rfl⟩
  · refine ⟨"Missing required setting " ++ name ++ ". Update it on the ",
      "settings page</a>.", ?_⟩
    unfold formatMissingSettingMessage
    rw [show ". Update it on the <a href=\"/settings.html\">settings page</a>." =
      ". Update it on the " ++ "<a href=\"/settings.html\">" ++ "settings page</a>."
      from by decide]
    simp [String.append_assoc]
  · intro hcon
    have hl := congrArg String.length hcon
    simp only [formatMissingSettingMessage, String.length_append] at hl
    rw [show "Missing required setting ".length = 25 from by decide,
      show ". Update it on the <a href=\"/settings.html\">settings page</a>.".length = 62
        from by decide,
      show "Unable to start device login.".length = 29 from by decide] at hl
    omega

/-- C9 counterexample: a tick of `setInterval` is not gated on the
previous poll response having arrived, so two poll requests can be in
flight simultaneously (start, first tick, second tick before any
response). This refutes the claim that a new poll request is never issued
while a previous one is outstanding. -/
theorem c9_counterexample_overlapping_polls :
    ¬ (∀ es : List Ev, (run initState es).inFlightPolls ≤ 1) := by
  intro hcl
  have h := hcl [Ev.startClick, Ev.startResponse (StartResult.ok samplePayload),
    Ev.tickFire 0, Ev.tickFire 0]
  rw [show (run initState [Ev.startClick,
      Ev.startResponse (StartResult.ok samplePayload),
      Ev.tickFire 0, Ev.tickFire 0]).inFlightPolls = 2 from rfl] at h
  omega

lemma clearTimer_inFlightPolls (s : PollerState) :
    (clearTimer s).inFlightPolls = s.inFlightPolls := by
  cases hd : s.devicePollTimer <;> simp [clearTimer, hd]

/-- C9 amended: poll responses are processed one at a time in arrival
order (each poll-response event consumes exactly one outstanding
request), but `setInterval` is not re-armed on response completion, so a
new poll request CAN be issued while a previous one is outstanding: a
trace with two ticks and no intervening response reaches two in-flight
poll requests. -/
theorem c9_amended_ticks_can_overlap :
    (∃ es : List Ev, (run initState es).inFlightPolls = 2) ∧
    (∀ (s : PollerState) (r : PollResult), 0 < s.inFlightPolls →
      (step s (Ev.pollResponse r)).inFlightPolls = s.inFlightPolls - 1) := by
  constructor
  · exact ⟨[Ev.startClick, Ev.startResponse (StartResult.ok samplePayload),
      Ev.tickFire 0, Ev.tickFire 0], rfl⟩
  · intro s r h
    have hne : ¬ s.inFlightPolls = 0 := by omega
    cases r <;> simp [step, hne, setDeviceStatus, clearTimer_inFlightPolls]

/-- Witness for the amended C9 at a concrete state with two outstanding
polls. -/
theorem c9_amended_ticks_can_overlap_witness :
    0 < (run initState [Ev.startClick,
      Ev.startResponse (StartResult.ok samplePayload),
      Ev.tickFire 0, Ev.tickFire 0]).inFlightPolls ∧
    (step (run initState [Ev.startClick,
        Ev.startResponse (StartResult.ok samplePayload),
        Ev.tickFire 0, Ev.tickFire 0]) (Ev.pollResponse PollResult.waiting)).inFlightPolls =
      (run initState [Ev.startClick,
        Ev.startResponse (StartResult.ok samplePayload),
        Ev.tickFire 0, Ev.tickFire 0]).inFlightPolls - 1 :=
  ⟨by decide,
    c9_amended_ticks_can_overlap.2 (run initState [Ev.startClick,
      Ev.startResponse (StartResult.ok samplePayload),
      Ev.tickFire 0, Ev.tickFire 0]) PollResult.waiting (by decide)⟩

end Checks
